import Mathlib

/-!
Shallow embedding of `src/app/renderer/components/menubar.js` (browser-laptop
menubar component) and proofs about its keyboard/mouse navigation logic.

The component reads immutable props, queries the DOM for element rectangles,
and emits fire-and-forget intents ("window actions").  We model a handler run
as a pure function from the props and a DOM environment to the list of intents
it dispatches, together with whether it consumed the event (`preventDefault`)
and whether it would have thrown a TypeError (`crashed`) — e.g. filtering a
null submenu or calling `.toJS()` on `undefined`.

JavaScript `undefined`/absent values are modelled with `Option`; string
truthiness (`if (s)`) is `strTruthy`.
-/

namespace Menubar

/-- A DOM bounding rectangle; only `left` and `bottom` are consumed by the
component (`showContextMenu` anchors at `rect.left` / `rect.bottom`). -/
structure Rect where
  left : Int
  bottom : Int
deriving DecidableEq, Repr

/-- A submenu entry's click handler: either the handler the host supplied in
the template (opaque, identified by a tag), or the wrapper installed by
`showContextMenu`, which closes over the entry's label and the
`lastFocusedSelector`. -/
inductive Handler where
  | original (tag : Nat)
  | wrappedClick (label : Option String) (lastFocusedSelector : Option String)
deriving DecidableEq, Repr

/-- Modelled from the spec: the separator marker type
(`common/commonMenu.separatorMenuItem`, not under `src/`).  Entries are
separators exactly when their `type` field equals this marker. -/
def separatorType : String := "separator"

/-- A submenu entry as the component reads it: a duck-typed object with an
optional `type` marker, optional `label`, optional explicit `visible` flag and
a `click` handler. -/
structure SubmenuItem where
  type : Option String
  label : Option String
  visible : Option Bool
  click : Handler
deriving DecidableEq, Repr

/-- Payload of `windowActions.setContextMenuDetail`: the anchor position and
the rendering template. -/
structure ContextMenuDetail where
  left : Int
  top : Int
  template : List SubmenuItem
deriving DecidableEq, Repr

/-- The intents this component dispatches to the external action layer. -/
inductive Intent where
  | setContextMenuDetail (detail : Option ContextMenuDetail)
  | setMenubarSelectedLabel (label : Option String)
  | setSubmenuSelectedIndex (index : Int)
  | clickMenubarSubmenu (label : Option String)
  | resetMenuState
deriving DecidableEq, Repr

/-- One observable step performed by a wrapped submenu click handler. -/
inductive ClickStep where
  | preventDefault
  | focus (selector : String)
  | dispatch (intent : Intent)
deriving DecidableEq, Repr

/-- A top-level template entry: a label and (optionally) its submenu.  An
entry lacking the `submenu` key yields `undefined` from `element.get('submenu')`. -/
structure MenuEntry where
  label : Option String
  submenu : Option (List SubmenuItem)
deriving DecidableEq, Repr

/-- The props the `Menubar` component reads. `contextMenuDetail` only matters
through its truthiness (presence of an open context menu). -/
structure MenubarProps where
  template : List MenuEntry
  selectedLabel : Option String
  selectedIndex : Int
  autohide : Bool
  contextMenuDetail : Bool
  lastFocusedSelector : Option String

/-- The DOM environment: `menubarItemMatches lbl` is the result list of
`document.querySelectorAll('.menubar .menubarItem[data-label=...]')` for a
given label, and `selectorMatches s` the number of matches of
`document.querySelectorAll(s)`. -/
structure Dom where
  menubarItemMatches : Option String → List Rect
  selectorMatches : String → Nat

/-- JavaScript truthiness of an optional string: `undefined` and `''` are
falsy. -/
def strTruthy : Option String → Bool
  | none => false
  | some s => s != ""

/-- Modelled from the spec: `wrappingClamp` from `common/lib/formatUtil` is
not under `src/`.  "Given value, lower bound, upper bound — if value exceeds
upper bound it wraps to lower bound; if value is below lower bound it wraps to
upper bound; otherwise unchanged." -/
def wrappingClamp (value low high : Int) : Int :=
  if value > high then low
  else if value < low then high
  else value

/-- Semantics of `Immutable.List.get`: a negative index counts back from the end;
out of range yields `undefined`. -/
def immGet {α : Type} (l : List α) (i : Int) : Option α :=
  let j : Int := if i < 0 then (l.length : Int) + i else i
  if 0 ≤ j then l.get? j.toNat else none

/-- First index where `p` holds, if any (semantics of JS `findIndex`, in
`Option` form). -/
def findIndexOpt {α : Type} (p : α → Bool) : List α → Option Nat
  | [] => none
  | a :: l => if p a then some 0 else (findIndexOpt p l).map (· + 1)

/-- JS `Array.prototype.findIndex` / `Immutable.List.findIndex`: first
matching index, `-1` when no element matches. -/
def findIndexJS {α : Type} (p : α → Bool) (l : List α) : Int :=
  match findIndexOpt p l with
  | some i => (i : Int)
  | none => -1

/-- The wrapper `showContextMenu` installs on every non-separator submenu
entry, run against a DOM environment: prevent default, optionally restore
focus (only when the selector is truthy and matches exactly one element),
then dispatch `clickMenubarSubmenu` with the entry's label. -/
def runWrappedClick (label : Option String) (lastFocusedSelector : Option String)
    (dom : Dom) : List ClickStep :=
  ClickStep.preventDefault ::
    (match lastFocusedSelector with
      | some s =>
        if s != "" then
          if dom.selectorMatches s == 1 then [ClickStep.focus s] else []
        else []
      | none => []) ++
    [ClickStep.dispatch (Intent.clickMenubarSubmenu label)]

/-- The per-entry transform inside `showContextMenu`'s `submenu.map`:
separators pass through unchanged, other entries get the wrapped click
handler. -/
def wrapSubmenuItem (lastFocusedSelector : Option String) (item : SubmenuItem) :
    SubmenuItem :=
  if item.type == some separatorType then item
  else { item with click := Handler.wrappedClick item.label lastFocusedSelector }

/-- Source function `showContextMenu(rect, submenu, lastFocusedSelector)`: dispatches a single
`setContextMenuDetail` intent anchored at `rect.left`/`rect.bottom` whose
template is the submenu with wrapped click handlers. -/
def showContextMenu (rect : Rect) (submenu : List SubmenuItem)
    (lastFocusedSelector : Option String) : List Intent :=
  [Intent.setContextMenuDetail (some
    { left := rect.left
      top := rect.bottom
      template := submenu.map (wrapSubmenuItem lastFocusedSelector) })]

/-- Source method `getTemplateByLabel(label)`: submenu of the first template entry whose
label `===` the argument; `null`/`undefined` (here `none`) when no entry
matches or the matching entry has no submenu. -/
def getTemplateByLabel (props : MenubarProps) (label : Option String) :
    Option (List SubmenuItem) :=
  match props.template.find? (fun element => element.label == label) with
  | some element => element.submenu
  | none => none

/-- Getter `selectedTemplate`. -/
def selectedTemplate (props : MenubarProps) : Option (List SubmenuItem) :=
  getTemplateByLabel props props.selectedLabel

/-- The filter predicate of `selectedTemplateItemsOnly`: drop separators, keep
entries whose explicit `visible` flag is true or that have no `visible` key. -/
def submenuItemVisible (element : SubmenuItem) : Bool :=
  if element.type == some separatorType then false
  else
    match element.visible with
    | some b => b
    | none => true

/-- Getter `selectedTemplateItemsOnly`; `none` models the TypeError thrown by
filtering a null/undefined `selectedTemplate`. -/
def selectedTemplateItemsOnly (props : MenubarProps) :
    Option (List SubmenuItem) :=
  (selectedTemplate props).map (List.filter submenuItemVisible)

/-- Getter `selectedIndexMax`; `none` models the TypeError propagated from
`selectedTemplateItemsOnly`. -/
def selectedIndexMax (props : MenubarProps) : Option Int :=
  (selectedTemplateItemsOnly props).map (fun result =>
    if result.length > 0 then (result.length : Int) else 0)

/-- Source method `getRectByLabel(label)`: the bounding rectangle of the uniquely matching
menubar item, `null` for zero or multiple matches. -/
def getRectByLabel (dom : Dom) (label : Option String) : Option Rect :=
  match dom.menubarItemMatches label with
  | [r] => some r
  | _ => none

/-- Getter `selectedRect`. -/
def selectedRect (props : MenubarProps) (dom : Dom) : Option Rect :=
  getRectByLabel dom props.selectedLabel

/-- Modelled from the spec: keycode constants (`js/constants/keyCodes`) are
not under `src/`; keys are symbolic, `other` standing for every keycode the
switch does not handle. -/
inductive Key where
  | enter
  | left
  | right
  | up
  | down
  | other
deriving DecidableEq, Repr

/-- The shared precondition of the Left/Right and Up/Down branches:
`if (!this.props.autohide && !this.props.selectedLabel) break`. -/
def navPrecondition (props : MenubarProps) : Bool :=
  props.autohide || strTruthy props.selectedLabel

/-- The next top-level index computed in the Left/Right branch: `0` when
`findIndex` fails, otherwise the current index ±1 wrap-clamped into
`[0, template.size - 1]`. -/
def lrNextIndex (props : MenubarProps) (key : Key) : Int :=
  let selectedIndex :=
    findIndexJS (fun element => element.label == props.selectedLabel)
      props.template
  if selectedIndex == -1 then 0
  else
    wrappingClamp (selectedIndex + if key == Key.left then -1 else 1)
      0 ((props.template.length : Int) - 1)

/-- Lookup `this.props.template.getIn([nextIndex, 'label'])`. -/
def lrNextLabel (props : MenubarProps) (key : Key) : Option String :=
  (immGet props.template (lrNextIndex props key)).bind MenuEntry.label

/-- Outcome of one `onKeyDown` run: whether `e.preventDefault()` was called,
the intents dispatched (in order, up to the crash point if any), and whether
the handler threw. -/
structure HandlerResult where
  preventDefault : Bool
  intents : List Intent
  crashed : Bool
deriving DecidableEq, Repr

/-- The `keyCodes.ENTER` case of `onKeyDown`. -/
def enterBranch (props : MenubarProps) : HandlerResult :=
  if (selectedTemplate props).isSome then
    match selectedTemplateItemsOnly props with
    | none => ⟨true, [], true⟩
    | some items =>
      ⟨true,
        [Intent.clickMenubarSubmenu
          ((immGet items props.selectedIndex).bind SubmenuItem.label),
          Intent.resetMenuState], false⟩
  else ⟨true, [], false⟩

/-- The `keyCodes.LEFT` / `keyCodes.RIGHT` case of `onKeyDown`. -/
def lrBranch (props : MenubarProps) (dom : Dom) (key : Key) : HandlerResult :=
  if !navPrecondition props then ⟨false, [], false⟩
  else if props.template.length > 0 then
    let nextLabel := lrNextLabel props key
    let base := [Intent.setMenubarSelectedLabel nextLabel]
    match getRectByLabel dom nextLabel with
    | some nextRect =>
      if props.contextMenuDetail && (selectedTemplate props).isSome then
        match getTemplateByLabel props nextLabel with
        | none =>
          ⟨true, base ++ [Intent.setSubmenuSelectedIndex 0], true⟩
        | some sub =>
          ⟨true,
            base ++ Intent.setSubmenuSelectedIndex 0 ::
              showContextMenu nextRect sub props.lastFocusedSelector, false⟩
      else ⟨true, base, false⟩
    | none => ⟨true, base, false⟩
  else ⟨true, [], false⟩

/-- The `keyCodes.UP` / `keyCodes.DOWN` case of `onKeyDown`. -/
def udBranch (props : MenubarProps) (dom : Dom) (key : Key) : HandlerResult :=
  if !navPrecondition props then ⟨false, [], false⟩
  else if strTruthy props.selectedLabel then
    match selectedTemplate props with
    | some sub =>
      match props.contextMenuDetail, selectedRect props dom with
      | false, some r =>
        ⟨true,
          Intent.setSubmenuSelectedIndex 0 ::
            showContextMenu r sub props.lastFocusedSelector, false⟩
      | _, _ =>
        match selectedIndexMax props with
        | none => ⟨true, [], true⟩
        | some maxIndex =>
          ⟨true,
            [Intent.setSubmenuSelectedIndex
              (wrappingClamp
                (props.selectedIndex + if key == Key.up then -1 else 1)
                0 (maxIndex - 1))], false⟩
    | none => ⟨true, [], false⟩
  else ⟨true, [], false⟩

/-- Handler `Menubar.onKeyDown`, as a pure function of the props, the DOM environment
and the pressed key. -/
def onKeyDown (props : MenubarProps) (dom : Dom) (key : Key) : HandlerResult :=
  match key with
  | Key.enter => enterBranch props
  | Key.left => lrBranch props dom Key.left
  | Key.right => lrBranch props dom Key.right
  | Key.up => udBranch props dom Key.up
  | Key.down => udBranch props dom Key.down
  | Key.other => ⟨false, [], false⟩

/-- Handler `MenubarItem.onClick`: deselect when the parent's selected label is truthy
and `===` this item's label; otherwise select this label and open its context
menu at the clicked element's bounding rectangle. -/
def MenubarItem.onClick (parentSelectedLabel : Option String)
    (label : Option String) (submenu : List SubmenuItem)
    (lastFocusedSelector : Option String) (targetRect : Rect) : List Intent :=
  if strTruthy parentSelectedLabel && (parentSelectedLabel == label) then
    [Intent.setContextMenuDetail none, Intent.setMenubarSelectedLabel none]
  else
    Intent.setMenubarSelectedLabel label ::
      showContextMenu targetRect submenu lastFocusedSelector

/-! ## Helper lemmas -/

lemma findIndexOpt_lt_length {α : Type} (p : α → Bool) (l : List α) (i : Nat)
    (h : findIndexOpt p l = some i) : i < l.length := by
  induction l generalizing i with
  | nil => simp [findIndexOpt] at h
  | cons a l ih =>
    by_cases hpa : p a
    · simp [findIndexOpt, hpa] at h
      simp only [List.length_cons]
      omega
    · simp [findIndexOpt, hpa] at h
      obtain ⟨j, hj, rfl⟩ := h
      have := ih j hj
      simp
      omega

lemma findIndexOpt_none_iff_find?_none {α : Type} (p : α → Bool) (l : List α) :
    findIndexOpt p l = none ↔ l.find? p = none := by
  induction l with
  | nil => simp [findIndexOpt]
  | cons a l ih =>
    by_cases hpa : p a
    · simp [findIndexOpt, hpa, List.find?_cons_of_pos]
    · simp [findIndexOpt, hpa, List.find?_cons_of_neg, ih]

lemma selectedTemplateItemsOnly_some_of_selectedTemplate {props : MenubarProps}
    {sub : List SubmenuItem} (h : selectedTemplate props = some sub) :
    selectedTemplateItemsOnly props = some (sub.filter submenuItemVisible) := by
  simp [selectedTemplateItemsOnly, h]

lemma selectedIndexMax_eq_length {props : MenubarProps} {sub : List SubmenuItem}
    (h : selectedTemplate props = some sub) :
    selectedIndexMax props = some ((sub.filter submenuItemVisible).length : Int) := by
  simp only [selectedIndexMax, selectedTemplateItemsOnly_some_of_selectedTemplate h,
    Option.map_some']
  split
  · rfl
  · next hlen =>
    simp only [not_lt, Nat.le_zero] at hlen
    simp [hlen]

/-! ## Claim C4: the Enter branch -/

/-- C4: whenever a selected template exists, the Enter branch dispatches a
`clickMenubarSubmenu` intent carrying the label at position `selectedIndex`
within the visible items of the selected template, followed by
`resetMenuState`; when no selected template exists it dispatches nothing. -/
theorem menubar_C4 (props : MenubarProps) (dom : Dom) :
    (∀ items, selectedTemplateItemsOnly props = some items →
      (onKeyDown props dom Key.enter).intents =
        [Intent.clickMenubarSubmenu
          ((immGet items props.selectedIndex).bind SubmenuItem.label),
         Intent.resetMenuState]) ∧
    (selectedTemplate props = none →
      (onKeyDown props dom Key.enter).intents = []) := by
  constructor
  · intro items h
    have hst : (selectedTemplate props).isSome := by
      rcases hs : selectedTemplate props with _ | sub
      · rw [selectedTemplateItemsOnly, hs] at h
        simp at h
      · simp
    simp [onKeyDown, enterBranch, hst, h]
  · intro h
    simp [onKeyDown, enterBranch, h]

def subC4 : List SubmenuItem :=
  [⟨none, some "x", none, Handler.original 0⟩,
   ⟨some separatorType, none, none, Handler.original 1⟩,
   ⟨none, some "y", none, Handler.original 2⟩]

def propsC4 : MenubarProps :=
  { template := [⟨some "A", some subC4⟩]
    selectedLabel := some "A"
    selectedIndex := 1
    autohide := false
    contextMenuDetail := true
    lastFocusedSelector := none }

def domC4 : Dom := ⟨fun _ => [], fun _ => 0⟩

/-- Witness for C4: on a concrete template (entries "x", a separator, "y";
`selectedIndex = 1`) the Enter branch clicks "y" — the separator is skipped —
and then resets the menu state. -/
theorem menubar_C4_witness :
    (onKeyDown propsC4 domC4 Key.enter).intents =
      [Intent.clickMenubarSubmenu (some "y"), Intent.resetMenuState] := by
  have h := (menubar_C4 propsC4 domC4).1 (subC4.filter submenuItemVisible)
    (by decide)
  rw [h]
  decide

/-! ## Claim C7: visible-items filtering -/

/-- C7: for every selected template, the visible-items view
(`selectedTemplateItemsOnly`) is the template filtered so that separators are
excluded, entries with `visible = false` are excluded, and entries with
`visible = true` or with no `visible` key at all are included. -/
theorem menubar_C7 (props : MenubarProps) (sub : List SubmenuItem)
    (h : selectedTemplate props = some sub) :
    selectedTemplateItemsOnly props = some (sub.filter submenuItemVisible) ∧
    ∀ element, element ∈ sub.filter submenuItemVisible ↔
      (element ∈ sub ∧ element.type ≠ some separatorType ∧
        element.visible ≠ some false) := by
  refine ⟨selectedTemplateItemsOnly_some_of_selectedTemplate h, fun element => ?_⟩
  rw [List.mem_filter]
  constructor
  · rintro ⟨hmem, hvis⟩
    refine ⟨hmem, ?_, ?_⟩
    · intro htype
      simp [submenuItemVisible, htype] at hvis
    · intro hfalse
      rcases htype : element.type == some separatorType
      · simp [submenuItemVisible, htype, hfalse] at hvis
      · simp [submenuItemVisible, htype] at hvis
  · rintro ⟨hmem, htype, hfalse⟩
    refine ⟨hmem, ?_⟩
    have htype' : (element.type == some separatorType) = false := by
      simpa using htype
    rcases hvis : element.visible with _ | b
    · simp [submenuItemVisible, htype', hvis]
    · rcases b
      · exact absurd hvis hfalse
      · simp [submenuItemVisible, htype', hvis]

def subC7 : List SubmenuItem :=
  [⟨none, some "a", none, Handler.original 0⟩,
   ⟨some separatorType, none, none, Handler.original 1⟩,
   ⟨none, some "b", some false, Handler.original 2⟩,
   ⟨none, some "c", some true, Handler.original 3⟩]

def propsC7 : MenubarProps :=
  { template := [⟨some "M", some subC7⟩]
    selectedLabel := some "M"
    selectedIndex := 0
    autohide := false
    contextMenuDetail := false
    lastFocusedSelector := none }

/-- Witness for C7: on a concrete selected template the visible items are
exactly the entry with no `visible` key and the entry with `visible = true`;
the separator and the `visible = false` entry are dropped. -/
theorem menubar_C7_witness :
    selectedTemplateItemsOnly propsC7 =
      some [⟨none, some "a", none, Handler.original 0⟩,
            ⟨none, some "c", some true, Handler.original 3⟩] ∧
    (⟨none, some "b", some false, Handler.original 2⟩ : SubmenuItem) ∉
      subC7.filter submenuItemVisible := by
  have h := menubar_C7 propsC7 subC7 (by decide)
  constructor
  · rw [h.1]
    decide
  · intro hmem
    have := (h.2 _).mp hmem
    simp at this

/-! ## Claim C10: MenubarItem.onClick with a falsy selected label -/

/-- C10: `MenubarItem.onClick` takes the deselect branch only when the
parent's `selectedLabel` is truthy: when it is absent or the empty string,
clicking an item — even one whose label compares equal to `selectedLabel` —
always dispatches that label as the new selected label and opens its context
menu, and never clears the context-menu detail or (for a labelled item) the
selected label. -/
theorem menubar_C10 (parentSelectedLabel label : Option String)
    (submenu : List SubmenuItem) (lastFocusedSelector : Option String)
    (rect : Rect) (h : strTruthy parentSelectedLabel = false) :
    MenubarItem.onClick parentSelectedLabel label submenu lastFocusedSelector
        rect =
      Intent.setMenubarSelectedLabel label ::
        showContextMenu rect submenu lastFocusedSelector ∧
    (∃ d, Intent.setContextMenuDetail (some d) ∈
      MenubarItem.onClick parentSelectedLabel label submenu lastFocusedSelector
        rect) ∧
    Intent.setContextMenuDetail none ∉
      MenubarItem.onClick parentSelectedLabel label submenu lastFocusedSelector
        rect ∧
    (label ≠ none →
      Intent.setMenubarSelectedLabel none ∉
        MenubarItem.onClick parentSelectedLabel label submenu
          lastFocusedSelector rect) := by
  have heq : MenubarItem.onClick parentSelectedLabel label submenu
      lastFocusedSelector rect =
      Intent.setMenubarSelectedLabel label ::
        showContextMenu rect submenu lastFocusedSelector := by
    simp [MenubarItem.onClick, h]
  refine ⟨heq, ?_, ?_, ?_⟩
  · exact ⟨⟨rect.left, rect.bottom,
      submenu.map (wrapSubmenuItem lastFocusedSelector)⟩,
      by rw [heq, showContextMenu]; simp⟩
  · rw [heq, showContextMenu]
    simp
  · intro hlabel
    rw [heq, showContextMenu]
    simp
    exact fun hcontra => hlabel hcontra.symm

/-- Witness for C10: with no label selected (`undefined`), clicking "File"
selects "File" and opens its context menu. -/
theorem menubar_C10_witness :
    MenubarItem.onClick none (some "File") [] none ⟨3, 4⟩ =
      Intent.setMenubarSelectedLabel (some "File") ::
        showContextMenu ⟨3, 4⟩ [] none ∧
    (∃ d, Intent.setContextMenuDetail (some d) ∈
      MenubarItem.onClick none (some "File") [] none ⟨3, 4⟩) ∧
    Intent.setContextMenuDetail none ∉
      MenubarItem.onClick none (some "File") [] none ⟨3, 4⟩ ∧
    (some "File" ≠ (none : Option String) →
      Intent.setMenubarSelectedLabel none ∉
        MenubarItem.onClick none (some "File") [] none ⟨3, 4⟩) :=
  menubar_C10 none (some "File") [] none ⟨3, 4⟩ (by decide)

/-! ## Claim C5: showContextMenu -/

/-- C5: `showContextMenu` dispatches a single `setContextMenuDetail` intent
positioned at `rect.left` / `rect.bottom`; its template leaves separators
unchanged and gives every non-separator entry a wrapped click handler which,
on any DOM, first prevents default, last dispatches `clickMenubarSubmenu`
with the entry's label, and performs a focus step exactly when the
`lastFocusedSelector` is a non-empty string matching exactly one element. -/
theorem menubar_C5 (rect : Rect) (submenu : List SubmenuItem)
    (lastFocusedSelector : Option String) :
    ∃ detail,
      showContextMenu rect submenu lastFocusedSelector =
        [Intent.setContextMenuDetail (some detail)] ∧
      detail.left = rect.left ∧
      detail.top = rect.bottom ∧
      detail.template = submenu.map (wrapSubmenuItem lastFocusedSelector) ∧
      ∀ item ∈ submenu,
        (item.type = some separatorType →
          wrapSubmenuItem lastFocusedSelector item = item) ∧
        (item.type ≠ some separatorType →
          (wrapSubmenuItem lastFocusedSelector item).click =
            Handler.wrappedClick item.label lastFocusedSelector ∧
          (wrapSubmenuItem lastFocusedSelector item).label = item.label ∧
          ∀ dom : Dom,
            (runWrappedClick item.label lastFocusedSelector dom).head? =
              some ClickStep.preventDefault ∧
            (runWrappedClick item.label lastFocusedSelector dom).getLast? =
              some (ClickStep.dispatch
                (Intent.clickMenubarSubmenu item.label)) ∧
            ∀ s, ClickStep.focus s ∈
                runWrappedClick item.label lastFocusedSelector dom ↔
              (lastFocusedSelector = some s ∧ s ≠ "" ∧
                dom.selectorMatches s = 1)) := by
  refine ⟨_, rfl, rfl, rfl, rfl, fun item _ => ⟨fun htype => ?_, fun htype => ?_⟩⟩
  · simp [wrapSubmenuItem, htype]
  · have htype' : (item.type == some separatorType) = false := by
      simpa using htype
    refine ⟨by simp [wrapSubmenuItem, htype'], by simp [wrapSubmenuItem, htype'],
      fun dom => ⟨rfl, ?_, fun s => ?_⟩⟩
    · rcases lastFocusedSelector with _ | sel
      · rfl
      · by_cases hsel : (sel != "") = true
        · by_cases hone : (dom.selectorMatches sel == 1) = true
          · simp [runWrappedClick, hsel, hone]
          · simp only [Bool.not_eq_true] at hone
            simp [runWrappedClick, hsel, hone]
        · simp only [Bool.not_eq_true] at hsel
          simp [runWrappedClick, hsel]
    · rcases lastFocusedSelector with _ | sel
      · simp [runWrappedClick]
      · by_cases hsel : (sel != "") = true
        · by_cases hone : (dom.selectorMatches sel == 1) = true
          · simp only [beq_iff_eq] at hone
            simp only [bne_iff_ne, ne_eq] at hsel
            simp [runWrappedClick, hsel, hone]
            constructor
            · rintro rfl
              exact ⟨rfl, hsel, hone⟩
            · rintro ⟨rfl, -, -⟩
              rfl
          · simp only [beq_iff_eq] at hone
            simp [runWrappedClick, hsel, hone]
            rintro rfl
            exact fun _ => hone
        · simp only [Bool.not_eq_true, bne_eq_false_iff_eq, beq_iff_eq] at hsel
          subst hsel
          simp [runWrappedClick]
          rintro rfl
          exact fun h => absurd rfl h

def subC5 : List SubmenuItem :=
  [⟨none, some "Open", none, Handler.original 0⟩,
   ⟨some separatorType, none, none, Handler.original 1⟩]

/-- Witness for C5: instantiated at a concrete rectangle, submenu, and
selector. -/
theorem menubar_C5_witness :
    ∃ detail,
      showContextMenu ⟨10, 20⟩ subC5 (some "webview") =
        [Intent.setContextMenuDetail (some detail)] ∧
      detail.left = (10 : Int) ∧
      detail.top = (20 : Int) ∧
      detail.template = subC5.map (wrapSubmenuItem (some "webview")) ∧
      ∀ item ∈ subC5,
        (item.type = some separatorType →
          wrapSubmenuItem (some "webview") item = item) ∧
        (item.type ≠ some separatorType →
          (wrapSubmenuItem (some "webview") item).click =
            Handler.wrappedClick item.label (some "webview") ∧
          (wrapSubmenuItem (some "webview") item).label = item.label ∧
          ∀ dom : Dom,
            (runWrappedClick item.label (some "webview") dom).head? =
              some ClickStep.preventDefault ∧
            (runWrappedClick item.label (some "webview") dom).getLast? =
              some (ClickStep.dispatch
                (Intent.clickMenubarSubmenu item.label)) ∧
            ∀ s, ClickStep.focus s ∈
                runWrappedClick item.label (some "webview") dom ↔
              ((some "webview" : Option String) = some s ∧ s ≠ "" ∧
                dom.selectorMatches s = 1)) :=
  menubar_C5 ⟨10, 20⟩ subC5 (some "webview")

/-! ## Branch lemmas for the keydown handler -/

lemma lrBranch_precond_false (props : MenubarProps) (dom : Dom) (key : Key)
    (h : navPrecondition props = false) :
    lrBranch props dom key = ⟨false, [], false⟩ := by
  simp [lrBranch, h]

lemma udBranch_precond_false (props : MenubarProps) (dom : Dom) (key : Key)
    (h : navPrecondition props = false) :
    udBranch props dom key = ⟨false, [], false⟩ := by
  simp [udBranch, h]

lemma lrBranch_precond_true_preventDefault (props : MenubarProps) (dom : Dom)
    (key : Key) (h : navPrecondition props = true) :
    (lrBranch props dom key).preventDefault = true := by
  unfold lrBranch
  rw [h]
  rcases hrect : getRectByLabel dom (lrNextLabel props key) with _ | r <;>
    rcases hsub : getTemplateByLabel props (lrNextLabel props key) with _ | sub <;>
      (repeat' split) <;> simp_all

lemma udBranch_precond_true_preventDefault (props : MenubarProps) (dom : Dom)
    (key : Key) (h : navPrecondition props = true) :
    (udBranch props dom key).preventDefault = true := by
  unfold udBranch
  rw [h]
  (repeat' split) <;> simp_all

lemma enterBranch_preventDefault (props : MenubarProps) :
    (enterBranch props).preventDefault = true := by
  unfold enterBranch
  (repeat' split) <;> rfl

lemma enterBranch_not_crashed (props : MenubarProps) :
    (enterBranch props).crashed = false := by
  unfold enterBranch
  rcases hst : selectedTemplate props with _ | sub
  · simp [hst]
  · simp [hst, selectedTemplateItemsOnly_some_of_selectedTemplate hst]

lemma udBranch_not_crashed (props : MenubarProps) (dom : Dom) (key : Key) :
    (udBranch props dom key).crashed = false := by
  unfold udBranch
  by_cases hp : navPrecondition props = true
  · rcases hst : selectedTemplate props with _ | sub
    · rw [hp]
      (repeat' split) <;> simp_all
    · have hmax := selectedIndexMax_eq_length hst
      rw [hp]
      simp only [Bool.not_true]
      rcases hcm : props.contextMenuDetail <;>
        rcases hsr : selectedRect props dom with _ | r <;>
          by_cases hsl : strTruthy props.selectedLabel = true <;>
            simp [hst, hmax, hcm, hsr, hsl]
  · rw [Bool.not_eq_true] at hp
    simp [hp]

lemma lrBranch_intents_head (props : MenubarProps) (dom : Dom) (key : Key)
    (hpre : navPrecondition props = true) (hlen : 0 < props.template.length) :
    (lrBranch props dom key).intents.head? =
      some (Intent.setMenubarSelectedLabel (lrNextLabel props key)) := by
  unfold lrBranch
  rw [hpre]
  rcases hrect : getRectByLabel dom (lrNextLabel props key) with _ | r <;>
    rcases hsub : getTemplateByLabel props (lrNextLabel props key) with _ | sub <;>
      (repeat' split) <;> simp_all

/-! ## Claim C3: Left/Right top-level cycling -/

/-- C3: with a non-empty template, the next top-level index is 0 when no
template entry matches the selected label; otherwise it is the matching index
±1 with wraparound in `[0, template.length − 1]` (Right from the last index
wraps to 0, Left from 0 wraps to the last index); and the label at the next
index is dispatched as the new selected label. -/
theorem menubar_C3 (props : MenubarProps) (dom : Dom) (key : Key)
    (hkey : key = Key.left ∨ key = Key.right)
    (hpre : navPrecondition props = true)
    (hlen : 0 < props.template.length) :
    (findIndexOpt (fun element => element.label == props.selectedLabel)
        props.template = none → lrNextIndex props key = 0) ∧
    (∀ i, findIndexOpt (fun element => element.label == props.selectedLabel)
        props.template = some i → key = Key.right →
      lrNextIndex props key =
        if i + 1 = props.template.length then 0 else (i : Int) + 1) ∧
    (∀ i, findIndexOpt (fun element => element.label == props.selectedLabel)
        props.template = some i → key = Key.left →
      lrNextIndex props key =
        if i = 0 then (props.template.length : Int) - 1 else (i : Int) - 1) ∧
    (onKeyDown props dom key).intents.head? =
      some (Intent.setMenubarSelectedLabel (lrNextLabel props key)) := by
  refine ⟨fun hfind => ?_, fun i hfind hk => ?_, fun i hfind hk => ?_, ?_⟩
  · unfold lrNextIndex findIndexJS
    rw [hfind]
    simp
  · subst hk
    have hi := findIndexOpt_lt_length _ _ _ hfind
    have hne : (((i : Nat) : Int) == -1) = false := by
      simp only [beq_eq_false_iff_ne, ne_eq]
      omega
    have hkl : (Key.right == Key.left) = false := by decide
    unfold lrNextIndex findIndexJS
    rw [hfind]
    simp only [hne, Bool.false_eq_true, if_false, hkl, wrappingClamp]
    split_ifs <;> omega
  · subst hk
    have hi := findIndexOpt_lt_length _ _ _ hfind
    have hne : (((i : Nat) : Int) == -1) = false := by
      simp only [beq_eq_false_iff_ne, ne_eq]
      omega
    have hkl : (Key.left == Key.left) = true := by decide
    unfold lrNextIndex findIndexJS
    rw [hfind]
    simp only [hne, Bool.false_eq_true, if_false, hkl, if_true, wrappingClamp]
    split_ifs <;> omega
  · rcases hkey with rfl | rfl <;>
      simpa [onKeyDown] using lrBranch_intents_head props dom _ hpre hlen

def propsC3 : MenubarProps :=
  { template := [⟨some "File", some []⟩, ⟨some "Edit", some []⟩,
      ⟨some "View", some []⟩]
    selectedLabel := some "Edit"
    selectedIndex := 0
    autohide := false
    contextMenuDetail := false
    lastFocusedSelector := none }

def propsC3w : MenubarProps := { propsC3 with selectedLabel := some "View" }

def domC3 : Dom := ⟨fun _ => [], fun _ => 0⟩

/-- Witness for C3: with template File/Edit/View and "Edit" selected, Right
moves to index 2 and dispatches "View" as the new selected label; with "View"
selected (the last index), Right wraps to index 0. -/
theorem menubar_C3_witness :
    lrNextIndex propsC3 Key.right = 2 ∧
    (onKeyDown propsC3 domC3 Key.right).intents.head? =
      some (Intent.setMenubarSelectedLabel (some "View")) ∧
    lrNextIndex propsC3w Key.right = 0 := by
  have h := menubar_C3 propsC3 domC3 Key.right (Or.inr rfl) (by decide) (by decide)
  have h2 := h.2.1 1 (by decide) rfl
  have hw := (menubar_C3 propsC3w domC3 Key.right (Or.inr rfl) (by decide)
    (by decide)).2.1 2 (by decide) rfl
  refine ⟨by rw [h2]; decide, ?_, by rw [hw]; decide⟩
  have h4 := h.2.2.2
  rw [h4]
  decide

/-! ## Claim C8: preventDefault discipline -/

/-- C8: the Enter branch always calls `preventDefault`; the Left/Right and
Up/Down branches call it exactly when their precondition (autohide enabled or
a label already selected) holds, and when the precondition fails they
dispatch nothing and leave the event unconsumed; any other key dispatches
nothing and leaves the event unconsumed. -/
theorem menubar_C8 (props : MenubarProps) (dom : Dom) :
    (onKeyDown props dom Key.enter).preventDefault = true ∧
    (∀ key, key = Key.left ∨ key = Key.right ∨ key = Key.up ∨ key = Key.down →
      ((onKeyDown props dom key).preventDefault = true ↔
        navPrecondition props = true) ∧
      (navPrecondition props = false →
        (onKeyDown props dom key).intents = [] ∧
        (onKeyDown props dom key).preventDefault = false)) ∧
    (onKeyDown props dom Key.other).preventDefault = false ∧
    (onKeyDown props dom Key.other).intents = [] := by
  refine ⟨enterBranch_preventDefault props, fun key hkey => ?_, rfl, rfl⟩
  by_cases hp : navPrecondition props = true
  · rcases hkey with rfl | rfl | rfl | rfl <;>
      simp [onKeyDown, hp, lrBranch_precond_true_preventDefault _ _ _ hp,
        udBranch_precond_true_preventDefault _ _ _ hp]
  · rw [Bool.not_eq_true] at hp
    rcases hkey with rfl | rfl | rfl | rfl <;>
      simp [onKeyDown, hp, lrBranch_precond_false _ _ _ hp,
        udBranch_precond_false _ _ _ hp]

def propsC8 : MenubarProps :=
  { template := [⟨some "A", some []⟩]
    selectedLabel := none
    selectedIndex := 0
    autohide := false
    contextMenuDetail := false
    lastFocusedSelector := none }

def domC8 : Dom := ⟨fun _ => [], fun _ => 0⟩

/-- Witness for C8: with autohide off and nothing selected, pressing Right
neither consumes the event nor dispatches an intent. -/
theorem menubar_C8_witness :
    ((onKeyDown propsC8 domC8 Key.right).preventDefault = true ↔
      navPrecondition propsC8 = true) ∧
    (onKeyDown propsC8 domC8 Key.right).intents = [] ∧
    (onKeyDown propsC8 domC8 Key.right).preventDefault = false := by
  have h := (menubar_C8 propsC8 domC8).2.1 Key.right (Or.inr (Or.inl rfl))
  exact ⟨h.1, h.2 (by decide)⟩

/-! ## Claim C9: the failing getters are guarded in onKeyDown -/

/-- C9: when `selectedLabel` matches no template entry, `selectedTemplate` is
null, so `selectedTemplateItemsOnly` and `selectedIndexMax` fail (modelled as
`none` — in particular `selectedIndexMax` does not return 0); but every
evaluation of these getters inside `onKeyDown` sits behind a
`selectedTemplate` non-null guard, so the Enter and Up/Down branches never
reach the failing evaluation. -/
theorem menubar_C9 (props : MenubarProps) (dom : Dom) :
    (selectedTemplate props = none →
      selectedTemplateItemsOnly props = none ∧
      selectedIndexMax props = none ∧ selectedIndexMax props ≠ some 0) ∧
    (findIndexOpt (fun element => element.label == props.selectedLabel)
        props.template = none →
      selectedTemplate props = none) ∧
    (onKeyDown props dom Key.enter).crashed = false ∧
    (onKeyDown props dom Key.up).crashed = false ∧
    (onKeyDown props dom Key.down).crashed = false := by
  refine ⟨fun h => ?_, fun h => ?_, enterBranch_not_crashed props,
    udBranch_not_crashed props dom Key.up, udBranch_not_crashed props dom Key.down⟩
  · have h1 : selectedTemplateItemsOnly props = none := by
      simp [selectedTemplateItemsOnly, h]
    have h2 : selectedIndexMax props = none := by
      simp [selectedIndexMax, h1]
    exact ⟨h1, h2, by simp [h2]⟩
  · rw [findIndexOpt_none_iff_find?_none] at h
    simp [selectedTemplate, getTemplateByLabel, h]

def propsC9 : MenubarProps :=
  { template := [⟨some "A", some []⟩]
    selectedLabel := some "Z"
    selectedIndex := 0
    autohide := true
    contextMenuDetail := true
    lastFocusedSelector := none }

def domC9 : Dom := ⟨fun _ => [], fun _ => 0⟩

/-- Witness for C9: with a selected label matching no template entry, the
derived getters fail (`none`), yet Enter and Up/Down runs do not crash. -/
theorem menubar_C9_witness :
    selectedTemplateItemsOnly propsC9 = none ∧
    selectedIndexMax propsC9 ≠ some 0 ∧
    (onKeyDown propsC9 domC9 Key.enter).crashed = false ∧
    (onKeyDown propsC9 domC9 Key.down).crashed = false := by
  have h := menubar_C9 propsC9 domC9
  have hst : selectedTemplate propsC9 = none := by decide
  exact ⟨(h.1 hst).1, (h.1 hst).2.2, h.2.2.1, h.2.2.2.2⟩

/-! ## Claim C1: Left/Right auto-open of the next submenu (corrected) -/

def propsC1x : MenubarProps :=
  { template := [⟨some "A", some []⟩, ⟨some "B", some []⟩]
    selectedLabel := some "A"
    selectedIndex := 0
    autohide := false
    contextMenuDetail := true
    lastFocusedSelector := none }

def domC1x : Dom := ⟨fun _ => [⟨5, 7⟩], fun _ => 0⟩

/-- Counterexample to C1 as stated: pressing Right moves from "A" to "B",
whose submenu is *empty* — the claim's condition "the new label has a
non-empty submenu" fails — yet the handler still resets the submenu index to
0 and opens a context menu (with an empty template) at the new rectangle,
because the code only checks truthiness of the *currently selected* label's
submenu (`this.selectedTemplate`), and an empty Immutable list is truthy. -/
theorem menubar_C1_counterexample :
    lrNextLabel propsC1x Key.right = some "B" ∧
    getTemplateByLabel propsC1x (some "B") = some [] ∧
    (onKeyDown propsC1x domC1x Key.right).intents =
      [Intent.setMenubarSelectedLabel (some "B"),
       Intent.setSubmenuSelectedIndex 0,
       Intent.setContextMenuDetail (some ⟨5, 7, []⟩)] := by decide

/-- C1 amended: after the next label is dispatched as selected, the submenu
index is reset to 0 iff a context menu is already open, the pre-move selected
label resolves to a submenu (possibly empty), and the new label's rectangle
is resolvable; the context menu itself additionally opens (anchored at the
new rectangle, showing the new label's submenu) iff, moreover, the new label
resolves to a submenu. -/
theorem menubar_C1_amended (props : MenubarProps) (dom : Dom) (key : Key)
    (hkey : key = Key.left ∨ key = Key.right)
    (hpre : navPrecondition props = true)
    (hlen : 0 < props.template.length) :
    ((∃ d, Intent.setContextMenuDetail d ∈ (onKeyDown props dom key).intents) ↔
      (props.contextMenuDetail = true ∧ (selectedTemplate props).isSome = true ∧
        (getRectByLabel dom (lrNextLabel props key)).isSome = true ∧
        (getTemplateByLabel props (lrNextLabel props key)).isSome = true)) ∧
    (Intent.setSubmenuSelectedIndex 0 ∈ (onKeyDown props dom key).intents ↔
      (props.contextMenuDetail = true ∧ (selectedTemplate props).isSome = true ∧
        (getRectByLabel dom (lrNextLabel props key)).isSome = true)) ∧
    (∀ rect sub, props.contextMenuDetail = true →
      (selectedTemplate props).isSome = true →
      getRectByLabel dom (lrNextLabel props key) = some rect →
      getTemplateByLabel props (lrNextLabel props key) = some sub →
      (onKeyDown props dom key).intents =
        Intent.setMenubarSelectedLabel (lrNextLabel props key) ::
          Intent.setSubmenuSelectedIndex 0 ::
            showContextMenu rect sub props.lastFocusedSelector) := by
  have hred : onKeyDown props dom key = lrBranch props dom key := by
    rcases hkey with rfl | rfl <;> rfl
  simp only [hred]
  unfold lrBranch
  rw [hpre]
  rcases hrect : getRectByLabel dom (lrNextLabel props key) with _ | rect0 <;>
    rcases hsub : getTemplateByLabel props (lrNextLabel props key) with _ | sub0 <;>
      by_cases hcm : props.contextMenuDetail = true <;>
        by_cases hst : (selectedTemplate props).isSome = true <;>
          simp_all [showContextMenu, hlen]

/-- Witness for the amended C1: a run where the guard holds and a context
menu is dispatched. -/
theorem menubar_C1_amended_witness :
    ∃ d, Intent.setContextMenuDetail d ∈
      (onKeyDown propsC1x domC1x Key.right).intents := by
  have h := menubar_C1_amended propsC1x domC1x Key.right (Or.inr rfl)
    (by decide) (by decide)
  exact h.1.mpr (by decide)

/-! ## Claim C2: Up/Down open-or-move (corrected) -/

def subC2 : List SubmenuItem :=
  [⟨none, some "x", none, Handler.original 0⟩,
   ⟨none, some "y", none, Handler.original 1⟩]

def propsC2x : MenubarProps :=
  { template := [⟨some "A", some subC2⟩]
    selectedLabel := some "A"
    selectedIndex := 0
    autohide := false
    contextMenuDetail := false
    lastFocusedSelector := none }

def domC2x : Dom := ⟨fun _ => [], fun _ => 0⟩

/-- Counterexample to C2 as stated: no context menu is open and the selected
item's rectangle does NOT resolve, yet pressing Down moves the submenu
selection (dispatching index 1).  The unavailable rectangle does not
short-circuit: the `else` of `!contextMenuDetail && selectedRect` is the
index-move branch, so a move happens although no context menu is open. -/
theorem menubar_C2_counterexample :
    propsC2x.contextMenuDetail = false ∧
    selectedRect propsC2x domC2x = none ∧
    (onKeyDown propsC2x domC2x Key.down).intents =
      [Intent.setSubmenuSelectedIndex 1] := by decide

/-- C2 amended: given the precondition, a truthy selected label and an
existing selected submenu: if no context menu is open and the selected
rectangle resolves, the handler opens the context menu there with index 0; in
every other case — context menu already open, or rectangle unavailable — it
moves the submenu selection by ±1 with clamp-with-wraparound within
`[0, selectedIndexMax − 1]`. -/
theorem menubar_C2_amended (props : MenubarProps) (dom : Dom) (key : Key)
    (hkey : key = Key.up ∨ key = Key.down)
    (hpre : navPrecondition props = true)
    (hsel : strTruthy props.selectedLabel = true)
    (sub : List SubmenuItem) (hsub : selectedTemplate props = some sub) :
    (∀ rect, props.contextMenuDetail = false →
      selectedRect props dom = some rect →
      (onKeyDown props dom key).intents =
        Intent.setSubmenuSelectedIndex 0 ::
          showContextMenu rect sub props.lastFocusedSelector) ∧
    ((props.contextMenuDetail = true ∨ selectedRect props dom = none) →
      (onKeyDown props dom key).intents =
        [Intent.setSubmenuSelectedIndex
          (wrappingClamp
            (props.selectedIndex + if key = Key.up then -1 else 1) 0
            (((sub.filter submenuItemVisible).length : Int) - 1))]) := by
  have hred : onKeyDown props dom key = udBranch props dom key := by
    rcases hkey with rfl | rfl <;> rfl
  have hdelta : (if (key == Key.up) = true then (-1 : Int) else 1) =
      (if key = Key.up then (-1 : Int) else 1) := by
    by_cases hk : key = Key.up <;> simp [hk]
  have hmax := selectedIndexMax_eq_length hsub
  constructor
  · intro rect hcm hrect
    rw [hred]
    unfold udBranch
    rw [hpre]
    simp [hsel, hsub, hcm, hrect]
  · intro hdisj
    rw [hred]
    unfold udBranch
    rw [hpre]
    rcases hdisj with hcm | hrect
    · rcases hsr : selectedRect props dom with _ | r <;>
        simp [hsel, hsub, hcm, hsr, hmax, hdelta]
    · rcases hcm2 : props.contextMenuDetail <;>
        simp [hsel, hsub, hrect, hcm2, hmax, hdelta]

/-- Witness for the amended C2: with no context menu open and an unresolvable
rectangle, Down moves the submenu selection from 0 to 1. -/
theorem menubar_C2_amended_witness :
    (onKeyDown propsC2x domC2x Key.down).intents =
      [Intent.setSubmenuSelectedIndex 1] := by
  have h := (menubar_C2_amended propsC2x domC2x Key.down (Or.inr rfl)
    (by decide) (by decide) subC2 (by decide)).2 (Or.inr (by decide))
  rw [h]
  decide

/-! ## Claim C6: MenubarItem.onClick toggle (corrected) -/

/-- Counterexample to C6 as stated: with `selectedLabel = ""` and an item
labelled `""` the two labels compare equal, but the handler does not clear
the selection — the deselect branch also requires the selected label to be
truthy — and instead selects the label and opens a context menu. -/
theorem menubar_C6_counterexample :
    MenubarItem.onClick (some "") (some "") [] none ⟨1, 2⟩ ≠
      [Intent.setContextMenuDetail none, Intent.setMenubarSelectedLabel none] ∧
    (∃ d, Intent.setContextMenuDetail (some d) ∈
      MenubarItem.onClick (some "") (some "") [] none ⟨1, 2⟩) := by
  constructor
  · decide
  · exact ⟨⟨1, 2, []⟩, by decide⟩

/-- C6 amended: if the parent's `selectedLabel` is truthy (non-empty,
present) and equals this item's label, the handler dispatches exactly a clear
of the context-menu detail followed by a clear of the selected label;
otherwise — including equal but falsy labels — it dispatches this label as
the new selected label and opens a context menu anchored at the clicked
element's rectangle. -/
theorem menubar_C6_amended (psl label : Option String)
    (submenu : List SubmenuItem) (sel : Option String) (rect : Rect) :
    (strTruthy psl = true → psl = label →
      MenubarItem.onClick psl label submenu sel rect =
        [Intent.setContextMenuDetail none,
         Intent.setMenubarSelectedLabel none]) ∧
    (¬(strTruthy psl = true ∧ psl = label) →
      MenubarItem.onClick psl label submenu sel rect =
        Intent.setMenubarSelectedLabel label ::
          showContextMenu rect submenu sel ∧
      ∃ d, Intent.setContextMenuDetail (some d) ∈
          MenubarItem.onClick psl label submenu sel rect ∧
        d.left = rect.left ∧ d.top = rect.bottom) := by
  constructor
  · intro ht heq
    subst heq
    simp [MenubarItem.onClick, ht]
  · intro hneg
    have hcond : (strTruthy psl && (psl == label)) = false := by
      by_cases h1 : strTruthy psl = true
      · by_cases h2 : psl = label
        · exact absurd ⟨h1, h2⟩ hneg
        · simp [h1, h2]
      · rw [Bool.not_eq_true] at h1
        simp [h1]
    have heq : MenubarItem.onClick psl label submenu sel rect =
        Intent.setMenubarSelectedLabel label ::
          showContextMenu rect submenu sel := by
      simp [MenubarItem.onClick, hcond]
    refine ⟨heq, ⟨rect.left, rect.bottom, submenu.map (wrapSubmenuItem sel)⟩,
      ?_, rfl, rfl⟩
    rw [heq, showContextMenu]
    simp

/-- Witness for the amended C6: clicking "File" while "File" is already
selected clears the context menu and the selected label. -/
theorem menubar_C6_amended_witness :
    MenubarItem.onClick (some "File") (some "File") [] none ⟨0, 0⟩ =
      [Intent.setContextMenuDetail none, Intent.setMenubarSelectedLabel none] :=
  (menubar_C6_amended (some "File") (some "File") [] none ⟨0, 0⟩).1
    (by decide) rfl

end Menubar
